import Mathlib

/-!
Verification development for the Smart Jotter feature of the AUTOW booking
web application.  The TypeScript sources are shallowly embedded as Lean
functions: JavaScript strings become `String`/`List Char`, JavaScript numbers
appearing in confidence arithmetic become `Rat`, nullable/optional values
become `Option`, and each API route handler becomes a pure function of its
request together with parameters standing for the outcomes of the external
service calls it performs.  The regular expressions of the mock extractor are
embedded by a small backtracking matcher whose result order mirrors the
JavaScript engine's (leftmost match, ordered alternation, greedy
quantifiers).
-/

/-! ## JavaScript string primitives

`isJsSpace` models the whitespace class used by `String.prototype.trim` and
by the `\s` regex class, restricted to the ASCII whitespace characters
(space, tab, line feed, carriage return, vertical tab, form feed); the
non-ASCII whitespace code points also matched by JavaScript do not occur in
any value analysed here. -/
def isJsSpace (c : Char) : Bool :=
  c = ' ' || c = '\t' || c = '\n' || c = '\r' || c = Char.ofNat 11 || c = Char.ofNat 12

/-- Both-ends whitespace trimming on character lists, as performed by
`String.prototype.trim`. -/
def trimChars (l : List Char) : List Char :=
  (l.dropWhile isJsSpace).rdropWhile isJsSpace

/-- `s.trim()` of JavaScript. -/
def jsTrim (s : String) : String :=
  String.mk (trimChars s.data)

/-- JavaScript truthiness of a `string | undefined | null` value: `undefined`
and `null` are falsy, a string is truthy exactly when it is non-empty. -/
def truthyS : Option String → Bool
  | none => false
  | some s => !(s == "")

/-- Does `needle` occur at the head of `hay`? (Helper for `containsSub`.) -/
def leadsWith : List Char → List Char → Bool
  | [], _ => true
  | _ :: _, [] => false
  | a :: t1, b :: t2 => a == b && leadsWith t1 t2

/-- `hay.includes(needle)` of JavaScript, on character lists. -/
def containsSub (needle : List Char) : List Char → Bool
  | [] => leadsWith needle []
  | c :: t => leadsWith needle (c :: t) || containsSub needle t

/-- `text.split(',')` of JavaScript: always returns at least one (possibly
empty) piece. -/
def splitOnComma : List Char → List (List Char)
  | [] => [[]]
  | c :: t =>
    if c = ',' then [] :: splitOnComma t
    else
      match splitOnComma t with
      | [] => [[c]]
      | h :: r => (c :: h) :: r

/-! ### Trimming is idempotent -/

/-- If a list survives a front `dropWhile`, so does its `rdropWhile`
(which only removes elements from the back). -/
theorem dropWhile_rdropWhile_of_dropWhile_eq_self (p : Char → Bool)
    (m : List Char) (hm : m.dropWhile p = m) :
    (m.rdropWhile p).dropWhile p = m.rdropWhile p := by
  rcases m with _ | ⟨a, t⟩
  · simp [List.rdropWhile]
  · have ha : ¬ p a := by
      rw [List.dropWhile_eq_self_iff] at hm
      simpa using hm (by simp)
    obtain ⟨s, hs⟩ := List.rdropWhile_prefix p (a :: t)
    rcases hr : (a :: t).rdropWhile p with _ | ⟨b, u⟩
    · simp
    · rw [hr] at hs
      have hb : b = a := by
        have := hs
        simp only [List.cons_append] at this
        exact (List.cons.injEq _ _ _ _ ▸ this).1
      subst hb
      simp [List.dropWhile_cons, ha]

/-- The character-list trim is idempotent. -/
theorem trimChars_idem (l : List Char) : trimChars (trimChars l) = trimChars l := by
  unfold trimChars
  rw [dropWhile_rdropWhile_of_dropWhile_eq_self isJsSpace (l.dropWhile isJsSpace)
        (List.dropWhile_idempotent isJsSpace l),
      List.rdropWhile_idempotent]

/-- `s.trim().trim() = s.trim()`. -/
theorem jsTrim_idem (s : String) : jsTrim (jsTrim s) = jsTrim s :=
  congrArg String.mk (trimChars_idem s.data)

/-! ## A small backtracking regex matcher

`src/app/api/autow/jotter/parse/route.ts` (`getMockResponse`) matches five
JavaScript regular expressions against the input text.  A matcher consumes a
front part of the input; the result list enumerates the alternatives in the
JavaScript engine's backtracking priority order (ordered alternation, greedy
quantifiers), so the head of the list is the match the engine commits to.
Each result carries the remaining input and the captured groups in order. -/
abbrev Matcher := List Char → List (List Char × List (List Char))

/-- Matcher accepting the empty string. -/
def mEps : Matcher := fun s => [(s, [])]

/-- Matcher that always fails (empty alternation base). -/
def mFail : Matcher := fun _ => []

/-- Single character of a class. -/
def mCh (p : Char → Bool) : Matcher := fun s =>
  match s with
  | [] => []
  | c :: t => if p c then [(t, [])] else []

/-- Concatenation; capture lists are concatenated in order. -/
def mSeq (m1 m2 : Matcher) : Matcher := fun s =>
  (m1 s).flatMap fun r1 => (m2 r1.1).map fun r2 => (r2.1, r1.2 ++ r2.2)

/-- Ordered alternation: the left alternative is preferred. -/
def mAlt (m1 m2 : Matcher) : Matcher := fun s => m1 s ++ m2 s

/-- `{n}`: exactly `n` characters of a class. -/
def mRep (p : Char → Bool) : Nat → Matcher
  | 0 => mEps
  | n + 1 => mSeq (mCh p) (mRep p n)

/-- Greedy `?` of a single-character class: consuming is preferred. -/
def mOpt (p : Char → Bool) : Matcher := mAlt (mCh p) mEps

/-- Suffixes of `s` obtained by consuming `k, k-1, …, 1` characters. -/
def suffixesDesc (s : List Char) : Nat → List (List Char × List (List Char))
  | 0 => []
  | k + 1 => (s.drop (k + 1), []) :: suffixesDesc s k

/-- Greedy `+` of a single-character class: the possible consumptions are
`1..maxrun` characters, longest first (the backtracking order of a greedy
quantifier over a character class). -/
def mPlus (p : Char → Bool) : Matcher := fun s =>
  suffixesDesc s (s.takeWhile p).length

/-- Case-sensitive literal. -/
def mLit (cs : List Char) : Matcher :=
  cs.foldr (fun c acc => mSeq (mCh (fun x => x == c)) acc) mEps

/-- Case-insensitive literal (the `/i` flag; ASCII folding suffices for the
make names involved). -/
def mLitCI (cs : List Char) : Matcher :=
  cs.foldr (fun c acc => mSeq (mCh (fun x => x.toLower == c.toLower)) acc) mEps

/-- Capturing group: records the characters its body consumed, in front of the
body's own captures (JavaScript numbers groups by the position of the opening
parenthesis). -/
def mGrp (m : Matcher) : Matcher := fun s =>
  (m s).map fun r => (r.1, s.take (s.length - r.1.length) :: r.2)

/-- `text.match(re)` for a non-global regex: try each start position from the
left, return the full-match text and the captured groups of the first success.
(`none` plays the role of JavaScript's `null` result.) -/
def matchFrom (m : Matcher) : List Char → Option (List Char × List (List Char))
  | [] =>
    match m [] with
    | r :: _ => some ([], r.2)
    | [] => none
  | c :: t =>
    match m (c :: t) with
    | r :: _ => some ((c :: t).take ((c :: t).length - r.1.length), r.2)
    | [] => matchFrom m t

/-- `\w` of JavaScript: ASCII letters, digits and underscore. -/
def isWordCh (c : Char) : Bool := c.isUpper || c.isLower || c.isDigit || c = '_'

/-! ## The mock extractor of the parse route

`src/app/api/autow/jotter/parse/route.ts`, `getMockResponse` and its
`patterns` table. -/

/-- `/([A-Z][a-z]+\s+[A-Z][a-z]+)/` — the `name` pattern. -/
def namePattern : Matcher :=
  mGrp (mSeq (mCh Char.isUpper) (mSeq (mPlus Char.isLower)
    (mSeq (mPlus isJsSpace) (mSeq (mCh Char.isUpper) (mPlus Char.isLower)))))

/-- `/(07\d{9}|\+44\s?7\d{3}\s?\d{3}\s?\d{3}|\d{11})/` — the `phone` pattern. -/
def phonePattern : Matcher :=
  mGrp (mAlt (mSeq (mLit "07".data) (mRep Char.isDigit 9))
    (mAlt (mSeq (mLit "+44".data) (mSeq (mOpt isJsSpace) (mSeq (mLit "7".data)
      (mSeq (mRep Char.isDigit 3) (mSeq (mOpt isJsSpace) (mSeq (mRep Char.isDigit 3)
        (mSeq (mOpt isJsSpace) (mRep Char.isDigit 3))))))))
      (mRep Char.isDigit 11)))

/-- `/([A-Z]{2}\d{2}\s?[A-Z]{3})/` — the `registration` pattern. -/
def registrationPattern : Matcher :=
  mGrp (mSeq (mRep Char.isUpper 2) (mSeq (mRep Char.isDigit 2)
    (mSeq (mOpt isJsSpace) (mRep Char.isUpper 3))))

/-- The ordered alternation of known vehicle makes. -/
def makeAlts : Matcher :=
  ["Ford", "BMW", "Audi", "Mercedes", "Toyota", "Honda", "Nissan",
   "Volkswagen", "Vauxhall", "Peugeot"].foldr
    (fun mk acc => mAlt (mLitCI mk.data) acc) mFail

/-- `/(Ford|BMW|…|Peugeot)\s+(\w+)/i` — the `vehicle` pattern, two capture
groups (make, model token). -/
def vehiclePattern : Matcher :=
  mSeq (mGrp makeAlts) (mSeq (mPlus isJsSpace) (mGrp (mPlus isWordCh)))

/-- `/(19|20)\d{2}/` — the `year` pattern (the code uses the full match). -/
def yearPattern : Matcher :=
  mSeq (mGrp (mAlt (mLit "19".data) (mLit "20".data))) (mRep Char.isDigit 2)

/-- The `data` object of the parse route's responses: the zod
`BookingDataSchema` shape (all six fields plus `notes` nullable strings,
`confidence_score` an optional number in `[0,1]`). -/
structure BookingData where
  customer_name : Option String
  phone : Option String
  vehicle : Option String
  year : Option String
  registration : Option String
  issue : Option String
  notes : Option String
  confidence_score : Option Rat
deriving DecidableEq

/-- `getMockResponse` of `src/app/api/autow/jotter/parse/route.ts`: the local
pattern-matching extractor used when no OpenAI key is configured or AI parsing
fails. -/
def getMockResponse (text : String) : BookingData :=
  let s := text.data
  let nameMatch := matchFrom namePattern s
  let phoneMatch := matchFrom phonePattern s
  let regMatch := matchFrom registrationPattern s
  let vehicleMatch := matchFrom vehiclePattern s
  let yearMatch := matchFrom yearPattern s
  { customer_name := nameMatch.map fun r => String.mk r.1
    phone := phoneMatch.map fun r => String.mk r.1
    vehicle := vehicleMatch.map fun r =>
      String.mk (r.2.getD 0 [] ++ ' ' :: r.2.getD 1 [])
    year := yearMatch.map fun r => String.mk r.1
    registration := regMatch.map fun r => String.mk r.1
    issue :=
      if containsSub "warning".data s || containsSub "light".data s
          || containsSub "problem".data s then
        match (splitOnComma s).getLast? with
        | some t =>
          let tr := trimChars t
          if tr = [] then none else some (String.mk tr)
        | none => none
      else none
    notes := some text
    confidence_score := some 0.7 }

/-! ## The parse route handler

`POST` of `src/app/api/autow/jotter/parse/route.ts`.  The OpenAI call is an
external collaborator: its outcome is a parameter of the handler
(`AiResult`).  The handler reads the request body once at the top; the catch
block's attempt to read it a second time finds the body stream already
consumed and throws (per the Fetch standard a body can be read once), which
the inner catch turns into the 500 `Parsing failed completely` answer. -/

/-- The `text` field of the parsed request body: absent, not a string, or a
string. -/
inductive ReqText where
  | missing
  | nonstring
  | str (s : String)

/-- The `usage` statistics of an OpenAI completion. -/
structure Usage where
  prompt_tokens : Nat
  completion_tokens : Nat
  total_tokens : Nat

/-- A JSON value in one of the positions the zod schema inspects. -/
inductive JVal where
  | jstr (s : String)
  | jnum (q : Rat)
  | jnull
  | jother
deriving DecidableEq

/-- A JSON object, as a key-ordered association list. -/
abbrev JObj := List (String × JVal)

/-- Property lookup on a JSON object. -/
def lookupJ (o : JObj) (k : String) : Option JVal :=
  (o.find? fun kv => kv.1 == k).map (·.2)

/-- JavaScript property assignment `o[k] = v`: overwrite in place or append. -/
def setJ (o : JObj) (k : String) (v : JVal) : JObj :=
  if (o.find? fun kv => kv.1 == k).isSome then
    o.map fun kv => if kv.1 == k then (k, v) else kv
  else o ++ [(k, v)]

/-- `z.string().nullable()` on a (possibly absent) property: accepts a string
or `null`; a missing key or any other shape is a validation issue. -/
def zodNullableString : Option JVal → Except String (Option String)
  | some (.jstr s) => .ok (some s)
  | some .jnull => .ok none
  | some _ => .error "invalid_type"
  | none => .error "required"

/-- `z.number().min(0).max(1).optional()` on a (possibly absent) property. -/
def zodUnitNumberOptional : Option JVal → Except String (Option Rat)
  | none => .ok none
  | some (.jnum q) => if 0 ≤ q ∧ q ≤ 1 then .ok (some q) else .error "out_of_range"
  | some _ => .error "invalid_type"

/-- `BookingDataSchema.parse`: shape validation of the AI response against the
zod schema (validation failure models a thrown `ZodError`; the first issue
found stands for the aggregate error). -/
def zodParseBookingData (o : JObj) : Except String BookingData := do
  let cn ← zodNullableString (lookupJ o "customer_name")
  let ph ← zodNullableString (lookupJ o "phone")
  let ve ← zodNullableString (lookupJ o "vehicle")
  let ye ← zodNullableString (lookupJ o "year")
  let re ← zodNullableString (lookupJ o "registration")
  let is ← zodNullableString (lookupJ o "issue")
  let no ← zodNullableString (lookupJ o "notes")
  let cs ← zodUnitNumberOptional (lookupJ o "confidence_score")
  .ok { customer_name := cn, phone := ph, vehicle := ve, year := ye,
        registration := re, issue := is, notes := no, confidence_score := cs }

/-- `usage ? Math.min(0.95, 0.5 + completion_tokens / 200) : 0.8`. -/
def aiConfidence : Option Usage → Rat
  | some u => min 0.95 (0.5 + (u.completion_tokens : Rat) / 200)
  | none => 0.8

/-- Outcome of the OpenAI interaction in the credentialed path. -/
inductive AiResult where
  | transportError (msg : String)
  | noContent
  | badJson
  | json (o : JObj) (usage : Option Usage)

/-- The JSON responses of the parse route, tagged by branch: 400 validation
reject, 200 `success:true` (with `mock`, optional `message` and optional
`error` fields), 422 shape-validation failure, 500 server error. -/
inductive ParseResponse where
  | badRequest (error : String)
  | okRes (data : BookingData) (mock : Bool) (message : Option String)
      (error : Option String)
  | invalidShape (error : String)
  | serverError (error : String)
deriving DecidableEq

/-- The generic fallback branch of the catch block: it begins with a second
`await request.json()`, but the body stream was consumed by the read at the
top of the handler, so the re-read throws and the inner catch answers 500
`Parsing failed completely`; the mock-response construction below the re-read
is unreachable from the credentialed path. -/
def parseFallback : ParseResponse :=
  .serverError "Parsing failed completely"

/-- `POST` of `src/app/api/autow/jotter/parse/route.ts`.  `apiKey` is
`process.env.OPENAI_API_KEY` (absent or its value), `req` the request body's
`text` field, `ai` the outcome of the OpenAI call (consulted only when a key
is configured).  The key gate is `if (!apiKey)`: a present-but-empty key is
falsy and takes the mock branch. -/
def parsePOST (apiKey : Option String) (req : ReqText) (ai : AiResult) :
    ParseResponse :=
  match req with
  | .missing => .badRequest "Text is required and must be a string"
  | .nonstring => .badRequest "Text is required and must be a string"
  | .str text =>
    if text = "" then .badRequest "Text is required and must be a string"
    else if truthyS apiKey = false then
      .okRes (getMockResponse text) true
        (some "Using mock parsing - add OPENAI_API_KEY for AI parsing") none
    else
      match ai with
      | .transportError msg =>
        if containsSub "API key".data msg.data then
          .serverError "OpenAI API configuration error"
        else parseFallback
      | .noContent => parseFallback
      | .badJson => parseFallback
      | .json o usage =>
        let withConf := setJ o "confidence_score" (.jnum (aiConfidence usage))
        match zodParseBookingData withConf with
        | .ok data => .okRes data false none none
        | .error _ => .invalidShape "Invalid data format from AI parsing"

/-! ## The recognize (OCR) route handler

`POST` of `app/api/autow/jotter/recognize/route.ts` (the MyScript OCR route).
The MyScript helpers are external collaborators: their outcome is a parameter.
`processingTime` (wall-clock) is not modelled. -/

/-- One canvas stroke, a sequence of 2D points. -/
structure Stroke where
  points : List (Rat × Rat)

/-- The request body's `inputType` discriminator. -/
inductive InputType where
  | image
  | strokes
deriving DecidableEq

/-- The parsed OCR request body (`width`/`height` default to 800/400 on
destructuring). -/
structure OCRRequest where
  imageData : Option String
  strokeData : Option (List Stroke)
  width : Nat := 800
  height : Nat := 400
  inputType : InputType

/-- The OCR route's JSON response together with its HTTP status. -/
structure OCRResponse where
  status : Nat
  success : Bool
  text : String
  confidence : Rat
  error : Option String
deriving DecidableEq

/-- Outcome of a `processImageWithMyScript` / `processStrokesWithMyScript`
call: recognized text and confidence, or a thrown error message. -/
inductive ExtOCR where
  | ok (text : String) (confidence : Rat)
  | fail (msg : String)

/-- The five rotating example phrases of `generateMockOCRText`. -/
def mockResponses : List String :=
  ["John Smith, 07712345678, Ford Focus 2018, YA19 ABC, Engine warning light",
   "Sarah Johnson, 07823456789, BMW X3 2020, BC20 DEF, Brake service required",
   "Mike Brown, 07934567890, Audi A4 2019, CD21 GHI, Annual MOT inspection",
   "Emma Wilson, 07845678901, Mercedes C200 2017, DE18 JKL, Air conditioning repair",
   "David Taylor, 07956789012, Volkswagen Golf 2021, EF22 MNO, Oil change service"]

/-- `generateMockOCRText`: selects a phrase by `input.length % 5`. -/
def generateMockOCRText (input : String) : String :=
  mockResponses.getD (input.length % mockResponses.length) ""

/-- The argument of the mock-path call, `imageData || 'mock-input'`
(JavaScript `||`: an absent or empty string falls back to the placeholder). -/
def mockInput (imageData : Option String) : String :=
  match imageData with
  | some s => if s = "" then "mock-input" else s
  | none => "mock-input"

/-- `POST` of the recognize route.  `apiKey`/`hmacKey` are
`process.env.MYSCRIPT_API_KEY` / `MYSCRIPT_HMAC_KEY`; `ext` the outcome of
the MyScript helper in the credentialed path. -/
def recognizePOST (apiKey hmacKey : Option String) (req : OCRRequest)
    (ext : ExtOCR) : OCRResponse :=
  if truthyS req.imageData = false ∧ req.strokeData.isNone = true then
    { status := 400, success := false, text := "", confidence := 0,
      error := some "No input data provided. Please provide either imageData or strokeData." }
  else if truthyS apiKey = false ∨ truthyS hmacKey = false then
    { status := 200, success := true,
      text := generateMockOCRText (mockInput req.imageData),
      confidence := 0.85,
      error := some "Using mock response - MyScript API keys not configured" }
  else if req.inputType = .image ∧ truthyS req.imageData = true then
    match ext with
    | .ok t c => { status := 200, success := true, text := t, confidence := c,
                   error := none }
    | .fail m => { status := 500, success := false, text := "", confidence := 0,
                   error := some m }
  else if req.inputType = .strokes ∧ req.strokeData.isSome = true then
    match ext with
    | .ok t c => { status := 200, success := true, text := t, confidence := c,
                   error := none }
    | .fail m => { status := 500, success := false, text := "", confidence := 0,
                   error := some m }
  else
    { status := 400, success := false, text := "", confidence := 0,
      error := some "Invalid input type or missing data for the specified input type." }

/-! ## The review/edit surface

`ParsedBookingData` as held by the preview components (six optional string
fields plus an optional overall confidence), with the field operations of
`JotterPreview.tsx` and of the preview variant embedded in `TextInput.tsx`. -/

/-- The in-memory record edited by the review surface. -/
structure ParsedBookingData where
  customer_name : Option String
  phone : Option String
  vehicle : Option String
  year : Option String
  registration : Option String
  issue : Option String
  confidence_score : Option Rat
deriving DecidableEq

/-- The six editable fields. -/
inductive RecField where
  | customer_name
  | phone
  | vehicle
  | year
  | registration
  | issue
deriving DecidableEq

/-- Field projection `data[field]`. -/
def getField (d : ParsedBookingData) : RecField → Option String
  | .customer_name => d.customer_name
  | .phone => d.phone
  | .vehicle => d.vehicle
  | .year => d.year
  | .registration => d.registration
  | .issue => d.issue

/-- The displayed field value `data[field] || ''`, as the preview components
wire each editable control. -/
def getFieldD (d : ParsedBookingData) (f : RecField) : String :=
  (getField d f).getD ""

/-- Spread update `{ ...data, [field]: newValue }`. -/
def setField (d : ParsedBookingData) (f : RecField) (v : String) : ParsedBookingData :=
  match f with
  | .customer_name => { d with customer_name := some v }
  | .phone => { d with phone := some v }
  | .vehicle => { d with vehicle := some v }
  | .year => { d with year := some v }
  | .registration => { d with registration := some v }
  | .issue => { d with issue := some v }

/-- `hasRequiredFields` of the preview variant in `TextInput.tsx`:
`!!(data.customer_name && data.phone && data.issue)` — JavaScript truthiness,
no trimming. -/
def hasRequiredFields (d : ParsedBookingData) : Bool :=
  truthyS d.customer_name && truthyS d.phone && truthyS d.issue

/-- `getConfidenceColor` of `JotterPreview.tsx` (and, identically, of the
preview variant in `TextInput.tsx`): `!conf` is true for an absent value and
for the number `0`. -/
def getConfidenceColor (conf : Option Rat) : String :=
  match conf with
  | none => "text-gray-400"
  | some c =>
    if c = 0 then "text-gray-400"
    else if 0.8 ≤ c then "text-green-500"
    else if 0.6 ≤ c then "text-yellow-500"
    else "text-red-500"

/-- `handleSave` of `JotterPreview.tsx` composed with its `handleFieldUpdate`:
the edited value is trimmed, and written only when it differs from the
currently displayed value `data[field] || ''`. -/
def saveEditPreview (d : ParsedBookingData) (f : RecField) (editValue : String) :
    ParsedBookingData :=
  if jsTrim editValue ≠ getFieldD d f then setField d f (jsTrim editValue) else d

/-- `saveEdit` of the preview variant embedded in `TextInput.tsx`: writes
`tempValues[field] || ''` into the record — no trimming. -/
def saveEditTextInput (d : ParsedBookingData) (f : RecField) (temp : Option String) :
    ParsedBookingData :=
  setField d f (temp.getD "")

/-! ## Action dispatch

`handleCreateBooking` of `src/components/smart-jotter/SmartJotter.tsx`: the
`URLSearchParams` handed to the booking page, as an ordered key-value list. -/

/-- The query parameters built from a (non-null) parsed record. -/
def bookingParams (d : BookingData) : List (String × String) :=
  [("customer_name", d.customer_name.getD ""),
   ("phone", d.phone.getD ""),
   ("vehicle", d.vehicle.getD ""),
   ("year", d.year.getD ""),
   ("registration", d.registration.getD ""),
   ("issue", d.issue.getD ""),
   ("from_jotter", "true")]

/-- `handleCreateBooking`: `null` records are a no-op (no dispatch), otherwise
the parameter set is built and dispatch proceeds. -/
def handleCreateBooking (d : Option BookingData) : Option (List (String × String)) :=
  d.map bookingParams

/-- First value bound to a key in a parameter list (what
`URLSearchParams.get` returns). -/
def lookupParam (ps : List (String × String)) (k : String) : Option String :=
  (ps.find? fun q => q.1 == k).map (·.2)

/-! ## The pipeline orchestrator

`processInput` of `src/components/smart-jotter/SmartJotter.tsx`.  The
`currentStep` state takes the values `input`, `processing`, `ocr`, `parsing`,
`preview`, `error`; one run of `processInput` performs a sequence of
`setCurrentStep` calls that depends on the input type and on the outcomes of
the two API calls.  `processInputTrace` is that sequence, in order. -/

/-- The `ProcessingStep` union type. -/
inductive ProcessingStep where
  | input
  | processing
  | ocr
  | parsing
  | preview
  | error
deriving DecidableEq

/-- The `'canvas' | 'text'` input type. -/
inductive InputKind where
  | canvas
  | text
deriving DecidableEq

/-- Outcome of the `fetch('/api/autow/jotter/recognize')` call:
`response.ok` and the body's `text` field. -/
structure OcrCall where
  respOk : Bool
  text : String

/-- Outcome of the `fetch('/api/autow/jotter/parse')` call: `response.ok`
and the body's `success` field. -/
structure ParseCall where
  respOk : Bool
  success : Bool

/-- The sequence of `setCurrentStep` values of one `processInput` run: any
thrown error is caught and sets the `error` step. -/
def processInputTrace (kind : InputKind) (ocrCall : OcrCall)
    (parseCall : ParseCall) : List ProcessingStep :=
  let afterParsing :=
    if parseCall.respOk = false then [ProcessingStep.error]
    else if parseCall.success = false then [ProcessingStep.error]
    else [ProcessingStep.preview]
  match kind with
  | .canvas =>
    [ProcessingStep.processing, ProcessingStep.ocr] ++
      (if ocrCall.respOk = false then [ProcessingStep.error]
       else if jsTrim ocrCall.text = "" then [ProcessingStep.error]
       else ProcessingStep.parsing :: afterParsing)
  | .text => ProcessingStep.processing :: ProcessingStep.parsing :: afterParsing

/-! ## Claim theorems -/

/-- The input text of Scenario A. -/
def sampleTextA : String :=
  "John Smith, 07712345678, Ford Focus 2018, YA19 ABC, Engine warning light"

/-- C2: with no extraction credentials configured, the parse route answers the
Scenario A text with the local mock extractor's output, marked `mock:true`,
and that output has customer_name "John Smith", phone "07712345678", vehicle
"Ford Focus" (containing "Ford Focus"), year "2018", registration "YA19 ABC",
and issue "Engine warning light". -/
theorem C2_mock_extractor_scenario :
    parsePOST none (.str sampleTextA) .noContent =
      .okRes (getMockResponse sampleTextA) true
        (some "Using mock parsing - add OPENAI_API_KEY for AI parsing") none ∧
    (getMockResponse sampleTextA).customer_name = some "John Smith" ∧
    (getMockResponse sampleTextA).phone = some "07712345678" ∧
    (getMockResponse sampleTextA).vehicle = some "Ford Focus" ∧
    (getMockResponse sampleTextA).year = some "2018" ∧
    (getMockResponse sampleTextA).registration = some "YA19 ABC" ∧
    (getMockResponse sampleTextA).issue = some "Engine warning light" := by
  refine ⟨rfl, ?_, ?_, ?_, ?_, ?_, ?_⟩ <;> decide

/-- C1 counterexample: a record whose customer name is a single space passes
`hasRequiredFields` even though the name trims to the empty string, so the
gate is not "non-empty after trimming". -/
theorem C1_counterexample :
    ¬ (hasRequiredFields
        ⟨some " ", some "07712345678", none, none, none, some "noise", none⟩ = true ↔
       (jsTrim " " ≠ "" ∧ jsTrim "07712345678" ≠ "" ∧ jsTrim "noise" ≠ "")) := by
  decide

/-- C1 (amended): the action gate `hasRequiredFields` is true iff
customer_name, phone and issue are each present and non-empty as given
(JavaScript truthiness, no trimming — a whitespace-only value passes), and
changing only the vehicle or registration fields never changes its result. -/
theorem C1_gate_truthiness (d : ParsedBookingData) (v r : Option String) :
    (hasRequiredFields d = true ↔
      ((getField d .customer_name).getD "" ≠ "" ∧
       (getField d .phone).getD "" ≠ "" ∧
       (getField d .issue).getD "" ≠ "")) ∧
    hasRequiredFields { d with vehicle := v, registration := r } =
      hasRequiredFields d := by
  constructor
  · cases hcn : d.customer_name <;> cases hph : d.phone <;> cases his : d.issue <;>
      simp [hasRequiredFields, truthyS, getField, hcn, hph, his, and_assoc]
  · rfl

/-- C10: for a non-null record the booking dispatch builds exactly the seven
query parameters, each of the six record fields defaulted to the empty string
when null/absent, plus the extra `from_jotter=true` marker; a null record
dispatches nothing. -/
theorem C10_booking_dispatch (d : BookingData) :
    handleCreateBooking (some d) = some (bookingParams d) ∧
    handleCreateBooking none = none ∧
    lookupParam (bookingParams d) "customer_name" = some (d.customer_name.getD "") ∧
    lookupParam (bookingParams d) "phone" = some (d.phone.getD "") ∧
    lookupParam (bookingParams d) "vehicle" = some (d.vehicle.getD "") ∧
    lookupParam (bookingParams d) "year" = some (d.year.getD "") ∧
    lookupParam (bookingParams d) "registration" = some (d.registration.getD "") ∧
    lookupParam (bookingParams d) "issue" = some (d.issue.getD "") ∧
    lookupParam (bookingParams d) "from_jotter" = some "true" := by
  refine ⟨rfl, rfl, ?_, ?_, ?_, ?_, ?_, ?_, ?_⟩ <;> rfl

/-- C6 counterexample: a field confidence of exactly 0 satisfies `c < 0.6` but
renders the neutral gray indicator, not the Low (red) band — JavaScript `!conf`
is true for the number 0. -/
theorem C6_counterexample :
    ¬ ((getConfidenceColor (some 0) = "text-red-500") ↔ ((0 : Rat) < 0.6)) := by
  have h0 : getConfidenceColor (some 0) = "text-gray-400" := by
    simp [getConfidenceColor]
  rw [h0]
  intro h
  exact absurd (h.mpr (by norm_num)) (by decide)

/-- C6 (amended): for a nonzero confidence `c` the band is High iff `c ≥ 0.8`,
Medium iff `0.6 ≤ c < 0.8`, Low iff `c < 0.6`; a missing confidence and a zero
confidence both render the neutral gray indicator (never Low). -/
theorem C6_confidence_banding (c : Rat) (hc : c ≠ 0) :
    (getConfidenceColor (some c) = "text-green-500" ↔ 0.8 ≤ c) ∧
    (getConfidenceColor (some c) = "text-yellow-500" ↔ 0.6 ≤ c ∧ c < 0.8) ∧
    (getConfidenceColor (some c) = "text-red-500" ↔ c < 0.6) ∧
    getConfidenceColor none = "text-gray-400" ∧
    getConfidenceColor (some 0) = "text-gray-400" := by
  have h5 : getConfidenceColor (some 0) = "text-gray-400" := by
    simp [getConfidenceColor]
  by_cases h8 : (0.8 : Rat) ≤ c
  · have hg : getConfidenceColor (some c) = "text-green-500" := by
      simp [getConfidenceColor, hc, h8]
    refine ⟨by rw [hg]; exact iff_of_true rfl h8, ?_, ?_, rfl, h5⟩
    · rw [hg]
      exact iff_of_false (by decide) fun hy => absurd h8 (not_le.mpr hy.2)
    · rw [hg]
      exact iff_of_false (by decide) fun hlt =>
        absurd (lt_of_le_of_lt h8 hlt) (by norm_num)
  · by_cases h6 : (0.6 : Rat) ≤ c
    · have hy : getConfidenceColor (some c) = "text-yellow-500" := by
        simp [getConfidenceColor, hc, h8, h6]
      refine ⟨?_, ?_, ?_, rfl, h5⟩
      · rw [hy]; exact iff_of_false (by decide) h8
      · rw [hy]; exact iff_of_true rfl ⟨h6, not_le.mp h8⟩
      · rw [hy]; exact iff_of_false (by decide) (not_lt.mpr h6)
    · have hr : getConfidenceColor (some c) = "text-red-500" := by
        simp [getConfidenceColor, hc, h8, h6]
      refine ⟨?_, ?_, ?_, rfl, h5⟩
      · rw [hr]; exact iff_of_false (by decide) h8
      · rw [hr]; exact iff_of_false (by decide) fun hy => h6 hy.1
      · rw [hr]; exact iff_of_true rfl (not_le.mp h6)

/-- Witness for the banding theorem at `c = 0.5`. -/
theorem C6_witness :
    getConfidenceColor (some (0.5 : Rat)) = "text-red-500" ↔ (0.5 : Rat) < 0.6 :=
  (C6_confidence_banding 0.5 (by norm_num)).2.2.1

/-- C7 counterexample: the `saveEdit` of the preview variant in
`TextInput.tsx` stores the edited value untrimmed, so saving `" John "` and
reading the field back does not yield `"John"`. -/
theorem C7_counterexample :
    (getField
        (saveEditTextInput ⟨none, none, none, none, none, none, none⟩
          .customer_name (some " John "))
        .customer_name).getD "" ≠ jsTrim " John " := by
  decide

/-- Writing a field and projecting it again yields the written value. -/
theorem getField_setField (d : ParsedBookingData) (f : RecField) (v : String) :
    getField (setField d f v) f = some v := by
  cases f <;> rfl

/-- C7 (amended): in `JotterPreview.tsx`, saving an edit stores the trimmed
value (skipping the write when it equals the current value), so reading the
field back yields `s.trim()` and re-saving `s.trim()` is a no-op on the
record; the `saveEdit` of the preview variant in `TextInput.tsx`, by contrast,
stores the value exactly as typed, without trimming. -/
theorem C7_save_trimming (d : ParsedBookingData) (f : RecField) (s : String) :
    getFieldD (saveEditPreview d f s) f = jsTrim s ∧
    saveEditPreview (saveEditPreview d f s) f (jsTrim s) = saveEditPreview d f s ∧
    getField (saveEditTextInput d f (some s)) f = some s := by
  have h1 : getFieldD (saveEditPreview d f s) f = jsTrim s := by
    unfold saveEditPreview
    by_cases h : jsTrim s ≠ getFieldD d f
    · rw [if_pos h]
      unfold getFieldD
      rw [getField_setField]
      rfl
    · rw [if_neg h]
      push_neg at h
      exact h.symm
  have h2 : ¬ (jsTrim (jsTrim s) ≠ getFieldD (saveEditPreview d f s) f) := by
    rw [h1, jsTrim_idem]
    simp
  refine ⟨h1, ?_, getField_setField d f s⟩
  show (if jsTrim (jsTrim s) ≠ getFieldD (saveEditPreview d f s) f then
          setField (saveEditPreview d f s) f (jsTrim (jsTrim s))
        else saveEditPreview d f s) = saveEditPreview d f s
  rw [if_neg h2]

/-- C8 counterexample: a whitespace-only text (empty after trimming) is not
rejected — the credential-less route processes it and produces a
`BookingRecord`. -/
theorem C8_counterexample :
    parsePOST none (.str " ") .noContent =
      .okRes (getMockResponse " ") true
        (some "Using mock parsing - add OPENAI_API_KEY for AI parsing") none ∧
    jsTrim " " = "" := by
  exact ⟨rfl, by decide⟩

/-- C8 (amended): the parse route rejects a request with a 400 validation
error, before any external call, exactly when the `text` field is absent, not
a string, or the empty string; any other string — whitespace-only included —
passes the gate and is processed (here: answered by the mock extractor when no
key is configured). -/
theorem C8_empty_text_gate (k : Option String) (ai : AiResult) (s : String)
    (hs : s ≠ "") :
    parsePOST k .missing ai = .badRequest "Text is required and must be a string" ∧
    parsePOST k .nonstring ai = .badRequest "Text is required and must be a string" ∧
    parsePOST k (.str "") ai = .badRequest "Text is required and must be a string" ∧
    parsePOST none (.str s) ai =
      .okRes (getMockResponse s) true
        (some "Using mock parsing - add OPENAI_API_KEY for AI parsing") none := by
  refine ⟨rfl, rfl, by simp [parsePOST], by simp [parsePOST, truthyS, hs]⟩

/-- Witness for the gate theorem at the whitespace-only text `" "`. -/
theorem C8_witness :
    parsePOST none (.str " ") .badJson =
      .okRes (getMockResponse " ") true
        (some "Using mock parsing - add OPENAI_API_KEY for AI parsing") none :=
  (C8_empty_text_gate none .badJson " " (by decide)).2.2.2

/-- C3 counterexample: an AI response whose JSON fails the zod shape check
(customer_name is a number) makes the route answer with the 422
`invalidShape` failure — not with a mock-extractor success. -/
theorem C3_counterexample :
    parsePOST (some "key") (.str "hello")
        (.json [("customer_name", JVal.jnum 42)] none) =
      .invalidShape "Invalid data format from AI parsing" := by
  rfl

/-- C3 (amended): with a truthy API key configured, a shape-validation (zod)
failure of the AI response is answered with the 422
`Invalid data format from AI parsing` failure (`success:false`) — not with a
mock-extractor success; nor do the other extraction errors of the
credentialed path reach a mock fallback: for unparseable JSON, missing
content, and transport errors not mentioning the API key, the catch block
re-reads the already-consumed request body and answers 500
`Parsing failed completely`, and a transport error whose message mentions the
API key is answered 500 `OpenAI API configuration error`. -/
theorem C3_shape_violation (key text : String) (o : JObj) (u : Option Usage)
    (e : String) (hkey : key ≠ "") (htext : text ≠ "")
    (hzod : zodParseBookingData
        (setJ o "confidence_score" (.jnum (aiConfidence u))) = .error e) :
    parsePOST (some key) (.str text) (.json o u) =
      .invalidShape "Invalid data format from AI parsing" ∧
    parsePOST (some key) (.str text) .badJson =
      .serverError "Parsing failed completely" ∧
    parsePOST (some key) (.str text) .noContent =
      .serverError "Parsing failed completely" ∧
    (∀ msg : String, containsSub "API key".data msg.data = false →
      parsePOST (some key) (.str text) (.transportError msg) =
        .serverError "Parsing failed completely") ∧
    (∀ msg : String, containsSub "API key".data msg.data = true →
      parsePOST (some key) (.str text) (.transportError msg) =
        .serverError "OpenAI API configuration error") := by
  have hk : truthyS (some key) = true := by simp [truthyS, hkey]
  refine ⟨?_,
    by simp [parsePOST, parseFallback, htext, hk],
    by simp [parsePOST, parseFallback, htext, hk],
    fun msg hmsg => by simp [parsePOST, parseFallback, htext, hk, hmsg],
    fun msg hmsg => by simp [parsePOST, htext, hk, hmsg]⟩
  simp [parsePOST, htext, hk, hzod]

/-- Witness for the shape-violation theorem at a concrete malformed AI
response and a concrete transport error. -/
theorem C3_witness :
    parsePOST (some "key") (.str "hi")
        (.json [("customer_name", JVal.jnum 42)] none) =
      .invalidShape "Invalid data format from AI parsing" ∧
    parsePOST (some "key") (.str "hi") (.transportError "boom") =
      .serverError "Parsing failed completely" :=
  ⟨(C3_shape_violation "key" "hi" [("customer_name", JVal.jnum 42)] none
      "invalid_type" (by decide) (by decide) rfl).1,
   (C3_shape_violation "key" "hi" [("customer_name", JVal.jnum 42)] none
      "invalid_type" (by decide) (by decide) rfl).2.2.2.1 "boom" (by decide)⟩

/-- The mock path of the recognize route: with incomplete MyScript
credentials, every valid request is answered by the deterministic mock
response. -/
theorem recognizePOST_mock (k h : Option String) (req : OCRRequest) (ext : ExtOCR)
    (hk : truthyS k = false ∨ truthyS h = false)
    (hv : ¬ (truthyS req.imageData = false ∧ req.strokeData.isNone = true)) :
    recognizePOST k h req ext =
      { status := 200, success := true,
        text := generateMockOCRText (mockInput req.imageData),
        confidence := 0.85,
        error := some "Using mock response - MyScript API keys not configured" } := by
  unfold recognizePOST
  rw [if_neg hv, if_pos hk]

/-- C4: with the external service's credentials absent, every valid
recognition request gets a mock result with confidence exactly 0.85 whose text
is the example phrase selected by the input's length modulo the number of
phrases, so two requests whose (defaulted) image payloads have the same size
receive identical text. -/
theorem C4_mock_recognition (k1 h1 k2 h2 : Option String) (r1 r2 : OCRRequest)
    (e1 e2 : ExtOCR)
    (hk1 : truthyS k1 = false ∨ truthyS h1 = false)
    (hk2 : truthyS k2 = false ∨ truthyS h2 = false)
    (hv1 : ¬ (truthyS r1.imageData = false ∧ r1.strokeData.isNone = true))
    (hv2 : ¬ (truthyS r2.imageData = false ∧ r2.strokeData.isNone = true)) :
    (recognizePOST k1 h1 r1 e1).success = true ∧
    (recognizePOST k1 h1 r1 e1).confidence = 0.85 ∧
    (recognizePOST k1 h1 r1 e1).text =
      mockResponses.getD ((mockInput r1.imageData).length % mockResponses.length) "" ∧
    ((mockInput r1.imageData).length = (mockInput r2.imageData).length →
      (recognizePOST k1 h1 r1 e1).text = (recognizePOST k2 h2 r2 e2).text) := by
  rw [recognizePOST_mock k1 h1 r1 e1 hk1 hv1, recognizePOST_mock k2 h2 r2 e2 hk2 hv2]
  refine ⟨rfl, rfl, rfl, fun hlen => ?_⟩
  unfold generateMockOCRText
  rw [hlen]

/-- Witness for the mock-recognition theorem: two same-length image payloads
under absent credentials. -/
theorem C4_witness :
    (recognizePOST none none ⟨some "ab", none, 800, 400, .image⟩ (.fail "x")).confidence
        = 0.85 ∧
    (recognizePOST none none ⟨some "ab", none, 800, 400, .image⟩ (.fail "x")).text =
      (recognizePOST (some "") (some "k") ⟨some "cd", none, 800, 400, .strokes⟩
        (.ok "t" 1)).text :=
  ⟨(C4_mock_recognition none none none none
      ⟨some "ab", none, 800, 400, .image⟩ ⟨some "cd", none, 800, 400, .strokes⟩
      (.fail "x") (.ok "t" 1)
      (Or.inl rfl) (Or.inl rfl) (by decide) (by decide)).2.1,
   (C4_mock_recognition none none (some "") (some "k")
      ⟨some "ab", none, 800, 400, .image⟩ ⟨some "cd", none, 800, 400, .strokes⟩
      (.fail "x") (.ok "t" 1)
      (Or.inl rfl) (Or.inl (by decide)) (by decide) (by decide)).2.2.2 (by decide)⟩

/-- C9: every recognition request served by the credential-less mock path
simultaneously reports `success:true` and a non-empty `error` message, so at
this interface `success:true` does not imply an absent `error` field. -/
theorem C9_mock_success_and_error (req : OCRRequest) (ext : ExtOCR)
    (hv : ¬ (truthyS req.imageData = false ∧ req.strokeData.isNone = true)) :
    (recognizePOST none none req ext).success = true ∧
    (recognizePOST none none req ext).error =
      some "Using mock response - MyScript API keys not configured" ∧
    "Using mock response - MyScript API keys not configured" ≠ "" := by
  rw [recognizePOST_mock none none req ext (Or.inl rfl) hv]
  exact ⟨rfl, rfl, by decide⟩

/-- Witness for the mock success-with-error theorem. -/
theorem C9_witness :
    (recognizePOST none none ⟨some "abc", none, 800, 400, .image⟩ (.fail "x")).success
        = true :=
  (C9_mock_success_and_error ⟨some "abc", none, 800, 400, .image⟩ (.fail "x")
    (by decide)).1

/-- C5: in every `processInput` run, the `preview` (Reviewing) step only ever
occurs after the `parsing` (Extracting) step, and with canvas (Drawing) input
the `parsing` step only ever occurs after the `ocr` (Recognizing) step. -/
theorem C5_no_stage_skipped (kind : InputKind) (ocrCall : OcrCall)
    (parseCall : ParseCall) :
    (ProcessingStep.preview ∈ processInputTrace kind ocrCall parseCall →
      ProcessingStep.parsing ∈ processInputTrace kind ocrCall parseCall ∧
      (processInputTrace kind ocrCall parseCall).indexOf ProcessingStep.parsing <
        (processInputTrace kind ocrCall parseCall).indexOf ProcessingStep.preview) ∧
    (kind = .canvas →
      ProcessingStep.parsing ∈ processInputTrace kind ocrCall parseCall →
      ProcessingStep.ocr ∈ processInputTrace kind ocrCall parseCall ∧
      (processInputTrace kind ocrCall parseCall).indexOf ProcessingStep.ocr <
        (processInputTrace kind ocrCall parseCall).indexOf ProcessingStep.parsing) := by
  rcases ocrCall with ⟨oOk, oText⟩
  rcases parseCall with ⟨pOk, pSucc⟩
  by_cases htrim : jsTrim oText = "" <;>
    cases kind <;> cases oOk <;> cases pOk <;> cases pSucc <;>
    simp [processInputTrace, htrim]

/-- Witness for the no-skip theorem on a successful canvas run. -/
theorem C5_witness :
    ProcessingStep.ocr ∈ processInputTrace .canvas ⟨true, "hello"⟩ ⟨true, true⟩ ∧
    (processInputTrace .canvas ⟨true, "hello"⟩ ⟨true, true⟩).indexOf
        ProcessingStep.ocr <
      (processInputTrace .canvas ⟨true, "hello"⟩ ⟨true, true⟩).indexOf
        ProcessingStep.parsing :=
  (C5_no_stage_skipped .canvas ⟨true, "hello"⟩ ⟨true, true⟩).2 rfl (by decide)
